import Mathlib

/-!
Verification of the STS servo driver protocol engine (src/STSServoDriver.cpp).

The development is a shallow embedding of the driver:

* Bytes are `Nat` values; C byte arithmetic that wraps is written with an
  explicit `% 256`.  C `int` values are `Int`; the C twos-complement
  operations `& 0xFF`, `>> 8` and the `int -> int16_t` truncation are
  embedded with `Int.land`, `Int.shiftRight` (arithmetic shift) and an
  explicit wrap into the interval [-32768, 32767].
* The serial port together with the direction pin is an oracle `Bus`:
  `write frame` yields the byte count the port reports for that frame and
  `read n` yields the bytes delivered for a `readBytes` request of `n`
  bytes.  Each driver operation additionally returns the ordered trace of
  port interactions (`BusEvent.txd` for a transmitted frame,
  `BusEvent.rxd n` for a read request of `n` bytes), so that statements
  such as "no write frame is transmitted" or "no response is read" can be
  expressed.
* The register table lives in STSServoDriver.h, which is not among the
  sources; every operation therefore takes the register offsets it uses as
  explicit parameters named after the corresponding `STSRegisters`
  constant.  The default `asynchronous = false` of the write helpers
  (declared in the missing header, visible from the three-argument calls
  in setId) is modelled by passing `false` explicitly.
-/

namespace instruction

/-- Command code PING, STSServoDriver.cpp line 6. -/
def PING : Nat := 0x01

/-- Command code READ, line 7. -/
def READ : Nat := 0x02

/-- Command code WRITE, line 8. -/
def WRITE : Nat := 0x03

/-- Command code REGWRITE, line 9. -/
def REGWRITE : Nat := 0x04

/-- Command code ACTION, line 10. -/
def ACTION : Nat := 0x05

/-- Command code SYNCWRITE, line 11. -/
def SYNCWRITE : Nat := 0x83

end instruction

/-- Frame built by `sendMessage` (lines 159-176): two sync bytes, the servo
id, the length byte `paramLength + 2`, the command byte, the parameter
bytes, and the bitwise complement of the running byte checksum.  The C
`byte` checksum accumulator wraps at every addition, hence the `% 256`
fold; `~checksum` on a byte value `c < 256` is `255 - c`. -/
def sendMessageFrame (servoId commandID : Nat) (parameters : List Nat) : List Nat :=
  let checksum := parameters.foldl (fun c p => (c + p) % 256)
      ((servoId + parameters.length + 2 + commandID) % 256)
  0xFF :: 0xFF :: servoId :: (parameters.length + 2) % 256 :: commandID ::
    (parameters ++ [255 - checksum])

/-- Receive-and-validate logic of `receiveMessage` (lines 264-287).
`input` is the byte list the port delivered for the `readBytes` request of
`readLength + 5` bytes.  The result is the C return code: `-1` when fewer
or more than `readLength + 5` bytes arrived, `-2` when a sync byte, the
device id or the length field is wrong, `-3` on a checksum mismatch, and
on success the `readLength` bytes starting at offset 4 (the C code copies
`result[i + 4]` into the output buffer).  The checksum loop of the C code
sums `result[2] .. result[readLength + 3]`, i.e. the sublist
`(input.drop 2).take (readLength + 2)`, into a wrapping byte. -/
def receiveMessage (servoId readLength : Nat) (input : List Nat) : Except Int (List Nat) :=
  if input.length ≠ readLength + 5 then .error (-1)
  else if input.getD 0 0 ≠ 0xFF ∨ input.getD 1 0 ≠ 0xFF ∨ input.getD 2 0 ≠ servoId
      ∨ input.getD 3 0 ≠ readLength + 1 then .error (-2)
  else
    let checksum := 255 - ((input.drop 2).take (readLength + 2)).foldl
        (fun c b => (c + b) % 256) 0
    if input.getD (readLength + 4) 0 ≠ checksum then .error (-3)
    else .ok ((input.drop 4).take readLength)

/-- Truncation of a C `int` to `int16_t` (twos-complement wrap into
[-32768, 32767]); used wherever the driver converts an `int` or
`unsigned int` into the `int16_t` argument of `writeTwoBytesRegister`, or
narrows `result[0] + (result[1] << 8)` to its `int16_t` return type. -/
def toInt16 (value : Int) : Int := (value + 32768) % 65536 - 32768

/-- C expression `value & 0xFF` on a (possibly negative) `int`, as a byte. -/
def byteAnd255 (value : Int) : Nat := (Int.land value 255).toNat

/-- C expression `(value >> 8) & 0xFF` on a (possibly negative) `int`;
`>>` on a negative `int` is an arithmetic shift, which is exactly
`Int.shiftRight`. -/
def byteShr8And255 (value : Int) : Nat := (Int.land (value >>> (8 : Nat)) 255).toNat

/-- Reassembly `result[0] + (result[1] << 8)` of `readTwoBytesRegister`
(line 236), narrowed to the `int16_t` return type. -/
def recombine16 (lo hi : Nat) : Int := toInt16 ((lo + (hi <<< 8) : Nat) : Int)

/-- Sign-bit encoding of `setTargetVelocity` (lines 135-137): the unsigned
magnitude `abs(velocity)` with bit 15 or-ed in when the velocity is
negative. -/
def encodeVelocity (velocity : Int) : Nat :=
  let feetechVelocity := velocity.natAbs
  if velocity < 0 then feetechVelocity ||| 0x8000 else feetechVelocity

/-- Sign-bit decoding of `getCurrentSpeed` (lines 96-100) applied to the
`int16_t` register value `vel`: `int16_t signedVel = vel & ~0x8000;` then
negation when `vel & 0x8000` is nonzero. -/
def decodeSpeedRaw (vel : Int) : Int :=
  let signedVel := toInt16 (Int.land vel (Int.not 0x8000))
  if Int.land vel 0x8000 ≠ 0 then -signedVel else signedVel

/-- Transport oracle: `write frame` is the byte count the port reports for
writing that frame, `read n` is the byte list a `readBytes` request of
`n` bytes delivers (fewer than `n` bytes model a timeout). -/
structure Bus where
  write : List Nat → Int
  read : Nat → List Nat

/-- Ordered record of one port interaction: a transmitted frame or a read
request of `n` bytes. -/
inductive BusEvent where
  | txd : List Nat → BusEvent
  | rxd : Nat → BusEvent
deriving DecidableEq

/-- Model of `sendMessage` (lines 159-184): builds the frame, writes it to the port
and returns the count the port reports.  The direction-pin toggling and
the settle delay are timing concerns with no data content and are not
modelled. -/
def sendMessage (bus : Bus) (servoId commandID : Nat) (parameters : List Nat) :
    Int × List BusEvent :=
  (bus.write (sendMessageFrame servoId commandID parameters),
   [BusEvent.txd (sendMessageFrame servoId commandID parameters)])

/-- Model of `ping` (lines 39-54): a zero-parameter PING frame, then — only when the
port reported exactly 6 bytes sent — a 6-byte read validated by
`receiveMessage`, alive exactly when the one status byte is 0x00. -/
def ping (bus : Bus) (servoId : Nat) : Bool × List BusEvent :=
  let s := sendMessage bus servoId instruction.PING []
  if s.1 ≠ 6 then (false, s.2)
  else
    match receiveMessage servoId 1 (bus.read 6) with
    | .error _ => (false, s.2 ++ [BusEvent.rxd 6])
    | .ok response => (response.getD 0 0xFF == 0x00, s.2 ++ [BusEvent.rxd 6])

/-- Model of `writeRegisters` (lines 186-201): the byte buffer
`startRegister :: parameters` of `writeLength + 1` bytes is handed to
sendMessage together with the parameter count `writeLength + 1` — an
`int` expression bound to the `byte` parameter of sendMessage, hence
truncated with `% 256`, so sendMessage reads that many leading buffer
bytes and at `writeLength = 255` the frame carries no parameters at all.
The command is WRITE when immediate and REGWRITE when deferred
(`asynchronous`); success is the `int` comparison of the reported count
with `writeLength + 7` (no truncation there); no response is read. -/
def writeRegisters (bus : Bus) (servoId startRegister : Nat) (parameters : List Nat)
    (asynchronous : Bool) : Bool × List BusEvent :=
  let s := sendMessage bus servoId
      (if asynchronous then instruction.REGWRITE else instruction.WRITE)
      ((startRegister :: parameters).take ((parameters.length + 1) % 256))
  (s.1 == (parameters.length : Int) + 7, s.2)

/-- Model of `writeRegister` (lines 203-209): one-byte write. -/
def writeRegister (bus : Bus) (servoId registerId value : Nat) (asynchronous : Bool) :
    Bool × List BusEvent :=
  writeRegisters bus servoId registerId [value] asynchronous

/-- Model of `writeTwoBytesRegister` (lines 211-219): little-endian two-byte write of
an `int16_t` value; `toInt16` is the conversion of the caller argument to
the `int16_t` parameter type. -/
def writeTwoBytesRegister (bus : Bus) (servoId registerId : Nat) (value : Int)
    (asynchronous : Bool) : Bool × List BusEvent :=
  writeRegisters bus servoId registerId
    [byteAnd255 (toInt16 value), byteShr8And255 (toInt16 value)] asynchronous

/-- Model of `readRegisters` (lines 239-262): flush, then a READ frame with
parameters `[startRegister, readLength]`; `-1` when the port did not
report 8 bytes sent, otherwise a `readLength + 6`-byte read validated with
expected parameter count `readLength + 1`; on success the first (status)
byte of the response parameters is discarded. -/
def readRegisters (bus : Bus) (servoId startRegister readLength : Nat) :
    Int × List Nat × List BusEvent :=
  let s := sendMessage bus servoId instruction.READ [startRegister, readLength]
  if s.1 ≠ 8 then (-1, [], s.2)
  else
    match receiveMessage servoId (readLength + 1) (bus.read (readLength + 6)) with
    | .error e => (e, [], s.2 ++ [BusEvent.rxd (readLength + 6)])
    | .ok res => (0, (res.drop 1).take readLength, s.2 ++ [BusEvent.rxd (readLength + 6)])

/-- Model of `readRegister` (lines 221-228): one-byte typed read, 0 when
`readRegisters` failed (the output buffer keeps its initializer `0`). -/
def readRegister (bus : Bus) (servoId registerId : Nat) : Nat :=
  let r := readRegisters bus servoId registerId 1
  if r.1 < 0 then 0 else r.2.1.getD 0 0

/-- Model of `readTwoBytesRegister` (lines 230-237): two-byte typed read, 0 when
`readRegisters` failed, otherwise the little-endian reassembly narrowed to
`int16_t`. -/
def readTwoBytesRegister (bus : Bus) (servoId registerId : Nat) : Int :=
  let r := readRegisters bus servoId registerId 2
  if r.1 < 0 then 0 else recombine16 (r.2.1.getD 0 0) (r.2.1.getD 1 0)

/-- Model of `getCurrentPosition` (lines 87-91); `CURRENT_POSITION` is the register
offset from the header. -/
def getCurrentPosition (bus : Bus) (CURRENT_POSITION : Nat) (servoId : Nat) : Int :=
  readTwoBytesRegister bus servoId CURRENT_POSITION

/-- Model of `getCurrentSpeed` (lines 93-101): two-byte read decoded through the
sign-bit scheme. -/
def getCurrentSpeed (bus : Bus) (CURRENT_SPEED : Nat) (servoId : Nat) : Int :=
  decodeSpeedRaw (readTwoBytesRegister bus servoId CURRENT_SPEED)

/-- Model of `setTargetPosition` (lines 120-130): six parameter bytes — position low
and high byte, two zero filler bytes, speed low and high byte. -/
def setTargetPosition (bus : Bus) (TARGET_POSITION : Nat) (servoId : Nat)
    (position speed : Int) (asynchronous : Bool) : Bool × List BusEvent :=
  writeRegisters bus servoId TARGET_POSITION
    [byteAnd255 position, byteShr8And255 position, 0, 0,
     byteAnd255 speed, byteShr8And255 speed] asynchronous

/-- Model of `setTargetVelocity` (lines 132-139): sign-bit encoding, then a two-byte
register write (the `unsigned int` is converted to the `int16_t`
parameter inside `writeTwoBytesRegister`). -/
def setTargetVelocity (bus : Bus) (RUNNING_SPEED : Nat) (servoId : Nat)
    (velocity : Int) (asynchronous : Bool) : Bool × List BusEvent :=
  writeTwoBytesRegister bus servoId RUNNING_SPEED
    ((encodeVelocity velocity : Nat) : Int) asynchronous

/-- Model of `setId` (lines 56-72): range guard on both ids, collision guard by
pinging the new id, then unlock EEPROM, write the id register, re-lock
under the new id and verify with a final ping.  `WRITE_LOCK` and `ID` are
the register offsets from the header. -/
def setId (bus : Bus) (WRITE_LOCK ID : Nat) (oldServoId newServoId : Nat) :
    Bool × List BusEvent :=
  if oldServoId ≥ 0xFE ∨ newServoId ≥ 0xFE then (false, [])
  else
    let p := ping bus newServoId
    if p.1 then (false, p.2)
    else
      let w1 := writeRegister bus oldServoId WRITE_LOCK 0 false
      if ¬ w1.1 then (false, p.2 ++ w1.2)
      else
        let w2 := writeRegister bus oldServoId ID newServoId false
        if ¬ w2.1 then (false, p.2 ++ w1.2 ++ w2.2)
        else
          let w3 := writeRegister bus newServoId WRITE_LOCK 1 false
          if ¬ w3.1 then (false, p.2 ++ w1.2 ++ w2.2 ++ w3.2)
          else
            let p2 := ping bus newServoId
            (p2.1, p.2 ++ w1.2 ++ w2.2 ++ w3.2 ++ p2.2)

/-- Discovery loop of `init` (lines 33-36): ping the candidate ids in
order, stop with `true` at the first that answers, `false` when the list
is exhausted. -/
def sweepPing (bus : Bus) : List Nat → Bool × List BusEvent
  | [] => (false, [])
  | i :: rest =>
    let p := ping bus i
    if p.1 then (true, p.2)
    else
      let r := sweepPing bus rest
      (r.1, p.2 ++ r.2)

/-- Model of `init` (lines 19-37), restricted to its discovery sweep over the
candidate ids 0x00 .. 0xFD (the port setup on lines 26-30 has no data
content). -/
def init (bus : Bus) : Bool × List BusEvent :=
  sweepPing bus (List.range 254)

/-- Modelled from the spec: the value the spec ascribes to Discover — the
first candidate id in 0x00 .. 0xFD that responds to ping, or none.  This
definition follows the words of the specification, for comparison with
the return value of `init`. -/
def specDiscoverFirstResponder (bus : Bus) : Option Nat :=
  (List.range 254).find? (fun i => (ping bus i).1)

/-- One per-device block of the broadcast sync-write frame
(`setTargetPositions`, lines 313-324): id, position low and high byte,
two zero filler bytes, speed low and high byte. -/
def syncBlockBytes (id : Nat) (pos spd : Int) : List Nat :=
  [id, byteAnd255 pos, byteShr8And255 pos, 0, 0, byteAnd255 spd, byteShr8And255 spd]

/-- One iteration of the `setTargetPositions` loop (lines 313-324): append
the 7-byte device block and fold its non-filler bytes into the wrapping
byte checksum exactly as the C code does (`checksum += servoIds[index]`,
then `sendAndUpdateChecksum` for the position pair and the speed pair). -/
def syncStep (servoIds : List Nat) (positions speeds : List Int) :
    List Nat × Nat → Nat → List Nat × Nat :=
  fun acc index =>
    let id := servoIds.getD index 0
    let pos := positions.getD index 0
    let spd := speeds.getD index 0
    let c1 := (acc.2 + id) % 256
    let c2 := (c1 + (byteAnd255 pos + byteShr8And255 pos)) % 256
    let c3 := (c2 + (byteAnd255 spd + byteShr8And255 spd)) % 256
    (acc.1 ++ syncBlockBytes id pos spd, c3)

/-- Model of `setTargetPositions` (lines 301-326): the byte sequence written to the
port, in order — sync bytes, broadcast id 0xFE, length byte
`numberOfServos * 7 + 4`, SYNCWRITE, the target-position register, the
block width 6, the per-device blocks, and the complement of the wrapping
byte checksum that starts from the header bytes after the sync pair. -/
def setTargetPositions (TARGET_POSITION : Nat) (numberOfServos : Nat)
    (servoIds : List Nat) (positions speeds : List Int) : List Nat :=
  let c0 := (0xFE + (numberOfServos * 7 + 4) + instruction.SYNCWRITE
      + TARGET_POSITION + 6) % 256
  let body := (List.range numberOfServos).foldl
      (syncStep servoIds positions speeds) ([], c0)
  [0xFF, 0xFF, 0xFE, (numberOfServos * 7 + 4) % 256, instruction.SYNCWRITE,
    TARGET_POSITION, 6] ++ body.1 ++ [255 - body.2]

/-- Bus on which every write reports 6 bytes and every read delivers a
valid ping response of servo 10 (status 0x00, checksum 243). -/
def busPing10 : Bus := ⟨fun _ => 6, fun _ => [0xFF, 0xFF, 10, 2, 0, 243]⟩

/-- Bus on which only frames addressed to servo 5 are reported as sent and
reads deliver a valid ping response of servo 5. -/
def busOnly5 : Bus :=
  ⟨fun f => if f.getD 2 0 == 5 then 6 else 0, fun _ => [0xFF, 0xFF, 5, 2, 0, 248]⟩

/-- Bus on which only frames addressed to servo 7 are reported as sent and
reads deliver a valid ping response of servo 7. -/
def busOnly7 : Bus :=
  ⟨fun f => if f.getD 2 0 == 7 then 6 else 0, fun _ => [0xFF, 0xFF, 7, 2, 0, 246]⟩

/-- Bus on which every write reports 6 bytes and every read delivers a
valid ping response of the broadcast id 0xFE (status 0x00, checksum 255). -/
def busFE : Bus := ⟨fun _ => 6, fun _ => [0xFF, 0xFF, 0xFE, 2, 0, 255]⟩

/-- Bus on which every write reports 0 bytes sent: every send fails. -/
def busDead : Bus := ⟨fun _ => 0, fun _ => []⟩

/-- Folding byte-wrapping addition over a list equals the wrapped total sum. -/
theorem foldl_add_mod (l : List Nat) : ∀ a : Nat,
    l.foldl (fun c p => (c + p) % 256) (a % 256) = (a + l.sum) % 256 := by
  induction l with
  | nil => intro a; simp
  | cons p l ih =>
    intro a
    show l.foldl _ ((a % 256 + p) % 256) = _
    rw [show (a % 256 + p) % 256 = (a + p) % 256 by omega, ih (a + p)]
    simp [List.sum_cons]
    omega

/-- Folding byte-wrapping addition starting from 0. -/
theorem foldl_add_mod_zero (l : List Nat) :
    l.foldl (fun c p => (c + p) % 256) 0 = l.sum % 256 := by
  have h := foldl_add_mod l 0
  simpa using h

/-- C1: for every device id, command code and parameter list, `sendMessage`
emits exactly the bytes 0xFF, 0xFF, id, `paramCount + 2`, cmd, the
parameter bytes in order, then the bitwise complement of the byte-truncated
sum of id, `paramCount + 2`, cmd and all parameter bytes. -/
theorem sendMessage_frame_layout (servoId commandID : Nat) (parameters : List Nat)
    (hlen : parameters.length + 2 < 256) :
    sendMessageFrame servoId commandID parameters =
      [0xFF, 0xFF, servoId, parameters.length + 2, commandID] ++ parameters ++
        [255 - (servoId + (parameters.length + 2) + commandID + parameters.sum) % 256] := by
  unfold sendMessageFrame
  rw [foldl_add_mod, Nat.mod_eq_of_lt hlen]
  simp only [List.cons_append, List.nil_append, List.append_assoc]
  have : servoId + parameters.length + 2 + commandID + parameters.sum
      = servoId + (parameters.length + 2) + commandID + parameters.sum := by omega
  rw [this]

/-- Witness for C1: the Ping frame of servo 1 is FF FF 01 02 01 FB. -/
theorem sendMessage_frame_layout_witness :
    sendMessageFrame 1 instruction.PING [] = [0xFF, 0xFF, 1, 2, 1, 0xFB] := by
  have h := sendMessage_frame_layout 1 instruction.PING [] (by decide)
  simpa using h

/-- C2: a frame produced by the encoder for (id, cmd, params), fed to the
receive/validation logic for the same id with the matching expected read
length `params.length + 1`, passes the sync-byte, id, length-field and
checksum checks and recovers the byte at the response status position
(here the command byte) followed by the parameter bytes unchanged. -/
theorem frame_roundtrip (servoId commandID : Nat) (parameters : List Nat)
    (hid : servoId ≤ 0xFD) (hlen : parameters.length ≤ 250) :
    receiveMessage servoId (parameters.length + 1)
        (sendMessageFrame servoId commandID parameters) =
      .ok (commandID :: parameters) := by
  have hmod : (parameters.length + 2) % 256 = parameters.length + 2 :=
    Nat.mod_eq_of_lt (by omega)
  unfold sendMessageFrame receiveMessage
  simp only [hmod]
  rw [if_neg (by simp)]
  rw [if_neg (by simp)]
  split
  case isTrue hne =>
    exfalso
    apply hne
    simp only [List.getD_cons_succ, List.drop_succ_cons, List.drop_zero,
      List.take_succ_cons]
    rw [List.getD_append_right _ _ _ _ (Nat.le_refl _), Nat.sub_self]
    rw [List.take_left' rfl]
    rw [List.getD_cons_zero]
    rw [foldl_add_mod parameters]
    have h2 := foldl_add_mod (servoId :: (parameters.length + 2) :: commandID :: parameters) 0
    simp only [Nat.zero_mod, List.sum_cons, Nat.zero_add] at h2
    rw [h2]
    congr 1
    omega
  case isFalse hne =>
    simp only [List.drop_succ_cons, List.drop_zero, List.take_succ_cons]
    rw [List.take_left' rfl]

/-- Witness for C2: the READ frame of servo 1 for registers 56 and 57
round-trips through the validation logic. -/
theorem frame_roundtrip_witness :
    receiveMessage 1 3 (sendMessageFrame 1 instruction.READ [56, 2]) =
      .ok [instruction.READ, 56, 2] := by
  have h := frame_roundtrip 1 instruction.READ [56, 2] (by decide) (by decide)
  simpa using h

/-- Counterexample for C3: a malformed first sync byte, a response device
id different from the requested id 1 (with valid sync bytes and a valid
checksum over id 2, length 2, status 0), and a wrong length field all
fail with one and the same return code -2; the receive logic does not
distinguish the three header-stage causes, and there is no separate
address-mismatch code. -/
theorem receive_error_codes_not_distinct :
    receiveMessage 1 1 [0xFE, 0xFF, 1, 2, 0, 251] = .error (-2) ∧
    receiveMessage 1 1 [0xFF, 0xFF, 2, 2, 0, 251] = .error (-2) ∧
    receiveMessage 1 1 [0xFF, 0xFF, 1, 3, 0, 251] = .error (-2) :=
  ⟨rfl, rfl, rfl⟩

/-- C3 amended: the receive logic separates short reads (-1), the header
stage (-2) and checksum mismatches (-3), but inside the header stage a
bad sync byte, a device-id mismatch and a length-field mismatch all
produce the single shared code -2; in particular a response whose device
id differs from the requested id fails with -2 — the same code as a
malformed header — even when sync bytes and checksum are valid. -/
theorem receive_header_stage_single_code (servoId readLength : Nat) (input : List Nat)
    (hlen : input.length = readLength + 5)
    (hbad : input.getD 0 0 ≠ 0xFF ∨ input.getD 1 0 ≠ 0xFF ∨ input.getD 2 0 ≠ servoId
      ∨ input.getD 3 0 ≠ readLength + 1) :
    receiveMessage servoId readLength input = .error (-2) := by
  unfold receiveMessage
  rw [if_neg (by omega)]
  rw [if_pos hbad]

/-- Witness for the amended C3: the id-mismatch input of the
counterexample indeed fails with code -2. -/
theorem receive_header_stage_single_code_witness :
    receiveMessage 1 1 [0xFF, 0xFF, 2, 2, 0, 251] = .error (-2) :=
  receive_header_stage_single_code 1 1 [0xFF, 0xFF, 2, 2, 0, 251] (by decide)
    (by right; right; left; decide)

set_option maxRecDepth 8000 in
/-- Counterexample for C4: at 255 data bytes the parameter count
`writeLength + 1` of the C code wraps to 0 in sendMessage's byte
parameter, so writeRegisters transmits the 6-byte frame with no
parameters at all — not the claimed 262-byte frame carrying the start
register followed by the 255 data bytes. -/
theorem writeRegisters_length_wrap :
    (writeRegisters busDead 1 7 (List.replicate 255 0) false).2 =
      [BusEvent.txd (sendMessageFrame 1 instruction.WRITE [])]
    ∧ (sendMessageFrame 1 instruction.WRITE []).length = 6
    ∧ (sendMessageFrame 1 instruction.WRITE (7 :: List.replicate 255 0)).length = 262 := by
  refine ⟨?_, rfl, ?_⟩ <;> decide

/-- C4 amended: for at most 254 data bytes — below the wrap of the
parameter-count byte `writeLength + 1` — writeRegisters sends a single
frame whose parameters are the start register followed by the given
bytes, with command code WRITE (0x03) in immediate mode and REGWRITE
(0x04) in deferred mode, performs no read of a response, and succeeds
exactly when the transport reports `bytes.length + 7` bytes sent. -/
theorem writeRegisters_spec (bus : Bus) (servoId startRegister : Nat)
    (bytes : List Nat) (asynchronous : Bool) (hlen : bytes.length ≤ 254) :
    (writeRegisters bus servoId startRegister bytes asynchronous).2 =
        [BusEvent.txd (sendMessageFrame servoId
          (if asynchronous then instruction.REGWRITE else instruction.WRITE)
          (startRegister :: bytes))]
      ∧ ((writeRegisters bus servoId startRegister bytes asynchronous).1 = true ↔
        bus.write (sendMessageFrame servoId
          (if asynchronous then instruction.REGWRITE else instruction.WRITE)
          (startRegister :: bytes)) = (bytes.length : Int) + 7) := by
  have htake : (startRegister :: bytes).take ((bytes.length + 1) % 256)
      = startRegister :: bytes := by
    rw [Nat.mod_eq_of_lt (by omega)]
    exact List.take_of_length_le (by simp)
  unfold writeRegisters sendMessage
  dsimp only
  rw [htake]
  exact ⟨rfl, beq_iff_eq⟩

/-- Witness for the amended C4: a concrete two-byte write of registers 7
and 8 on the dead bus transmits exactly the WRITE frame with parameters
7, 9, 4 and fails because the transport reported 0 of the 9 expected
bytes. -/
theorem writeRegisters_spec_witness :
    (writeRegisters busDead 1 7 [9, 4] false).2 =
        [BusEvent.txd (sendMessageFrame 1 instruction.WRITE [7, 9, 4])]
      ∧ ((writeRegisters busDead 1 7 [9, 4] false).1 = true ↔
        busDead.write (sendMessageFrame 1 instruction.WRITE [7, 9, 4])
          = (([9, 4] : List Nat).length : Int) + 7) := by
  have h := writeRegisters_spec busDead 1 7 [9, 4] false (by decide)
  simpa using h

/-- Folding the per-device loop of setTargetPositions accumulates exactly
the concatenated 7-byte device blocks and the wrapped sum of their
bytes. -/
theorem syncStep_foldl (servoIds : List Nat) (ps ss : List Int) :
    ∀ (l : List Nat) (acc : List Nat) (c : Nat),
    l.foldl (syncStep servoIds ps ss) (acc, c % 256) =
      (acc ++ (l.map (fun i =>
          syncBlockBytes (servoIds.getD i 0) (ps.getD i 0) (ss.getD i 0))).flatten,
       (c + ((l.map (fun i =>
          syncBlockBytes (servoIds.getD i 0) (ps.getD i 0) (ss.getD i 0))).flatten).sum) % 256) := by
  intro l
  induction l with
  | nil => intro acc c; simp
  | cons i l ih =>
    intro acc c
    show l.foldl _ (syncStep servoIds ps ss (acc, c % 256) i) = _
    have hstep : syncStep servoIds ps ss (acc, c % 256) i =
        (acc ++ syncBlockBytes (servoIds.getD i 0) (ps.getD i 0) (ss.getD i 0),
         (c + (syncBlockBytes (servoIds.getD i 0) (ps.getD i 0) (ss.getD i 0)).sum) % 256) := by
      simp only [syncStep, syncBlockBytes, Prod.mk.injEq, List.sum_cons, List.sum_nil]
      exact ⟨trivial, by omega⟩
    rw [hstep, ih]
    simp only [List.map_cons, List.flatten_cons, List.sum_append, List.append_assoc,
      Prod.mk.injEq]
    exact ⟨trivial, by omega⟩

/-- C5: setTargetPositions for n devices with their positions and speeds
emits a single broadcast frame FF FF FE, length byte `n * 7 + 4`,
SYNCWRITE 0x83, the target-position register, block width 6, then the
7-byte block `id posLo posHi 00 00 spdLo spdHi` of every device in input
order, terminated by the bitwise complement of the byte-truncated sum of
every byte after the two sync bytes (the zero filler bytes contribute
nothing to that sum). -/
theorem setTargetPositions_frame (TARGET_POSITION numberOfServos : Nat)
    (servoIds : List Nat) (positions speeds : List Int)
    (hTP : TARGET_POSITION < 256)
    (hn : 0 < numberOfServos)
    (hlen : numberOfServos * 7 + 4 < 256)
    (hids : servoIds.length = numberOfServos)
    (hps : positions.length = numberOfServos)
    (hss : speeds.length = numberOfServos) :
    setTargetPositions TARGET_POSITION numberOfServos servoIds positions speeds =
      [0xFF, 0xFF, 0xFE, numberOfServos * 7 + 4, instruction.SYNCWRITE,
        TARGET_POSITION, 6]
      ++ ((List.range numberOfServos).map (fun i =>
            syncBlockBytes (servoIds.getD i 0) (positions.getD i 0)
              (speeds.getD i 0))).flatten
      ++ [255 - ((0xFE + (numberOfServos * 7 + 4) + instruction.SYNCWRITE
            + TARGET_POSITION + 6)
          + ((List.range numberOfServos).map (fun i =>
              syncBlockBytes (servoIds.getD i 0) (positions.getD i 0)
                (speeds.getD i 0))).flatten.sum) % 256] := by
  unfold setTargetPositions
  dsimp only
  rw [syncStep_foldl servoIds positions speeds (List.range numberOfServos) []]
  rw [Nat.mod_eq_of_lt hlen]
  simp [List.append_assoc]

/-- Witness for C5: the spec example — two devices 1 and 2, positions 100
and 200, speeds 50 and 50 — yields length byte 18 and two 7-byte blocks
in input order. -/
theorem setTargetPositions_frame_witness :
    setTargetPositions 42 2 [1, 2] [100, 200] [50, 50] =
      [0xFF, 0xFF, 0xFE, 18, 0x83, 42, 6,
       1, 100, 0, 0, 0, 50, 0,
       2, 200, 0, 0, 0, 50, 0, 169] := by
  rw [setTargetPositions_frame 42 2 [1, 2] [100, 200] [50, 50]
    (by decide) (by decide) (by decide) (by decide) (by decide) (by decide)]
  decide


/-- Bitwise set difference of the mask 255 and any number is the byte
complement of its low byte. -/
theorem ldiff_255 (k : Nat) : Nat.ldiff 255 k = 255 - k % 256 := by
  apply Nat.eq_of_testBit_eq
  intro j
  rw [Nat.testBit_ldiff]
  rw [show (255 : Nat) = 2 ^ 8 - 1 from rfl, Nat.testBit_two_pow_sub_one]
  rw [show (2 : Nat) ^ 8 - 1 - k % 256 = 2 ^ 8 - (k % 256 + 1) by omega]
  rw [Nat.testBit_two_pow_sub_succ (Nat.mod_lt _ (by norm_num))]
  rw [Nat.testBit_mod_two_pow]
  cases Nat.testBit k j <;> simp

/-- Clearing bit 15 of a number below 2^15 changes nothing. -/
theorem ldiff_of_lt (a : Nat) (h : a < 32768) : Nat.ldiff a 32768 = a := by
  apply Nat.eq_of_testBit_eq
  intro j
  rw [Nat.testBit_ldiff, show (32768 : Nat) = 2 ^ 15 from rfl]
  rcases eq_or_ne 15 j with hj | hj
  · rw [← hj, Nat.testBit_lt_two_pow h, Nat.testBit_two_pow_self]
    rfl
  · rw [Nat.testBit_two_pow_of_ne hj]
    simp

/-- Clearing the bits of a number below 2^15 from 2^15 leaves 2^15. -/
theorem ldiff_two_pow_15 (k : Nat) (h : k < 32768) : Nat.ldiff 32768 k = 32768 := by
  apply Nat.eq_of_testBit_eq
  intro j
  rw [Nat.testBit_ldiff, show (32768 : Nat) = 2 ^ 15 from rfl]
  rcases eq_or_ne 15 j with hj | hj
  · rw [← hj, Nat.testBit_lt_two_pow h, Nat.testBit_two_pow_self]
    rfl
  · rw [Nat.testBit_two_pow_of_ne hj]
    simp

/-- A number below 2^15 has bit 15 clear. -/
theorem land_two_pow_15_eq_zero (a : Nat) (h : a < 32768) : a &&& 32768 = 0 := by
  have h2 := Nat.and_two_pow a 15
  rw [Nat.testBit_lt_two_pow h] at h2
  simpa using h2

/-- Setting bit 15 on a number below 2^15 adds 2^15. -/
theorem lor_two_pow_15 (a : Nat) (h : a < 32768) : a ||| 32768 = a + 32768 := by
  apply Nat.eq_of_testBit_eq
  intro j
  rw [Nat.testBit_lor, show (32768 : Nat) = 2 ^ 15 from rfl, Nat.add_comm a (2 ^ 15)]
  rcases Nat.lt_trichotomy j 15 with hj | hj | hj
  · rw [Nat.testBit_two_pow_add_gt hj, Nat.testBit_two_pow_of_ne (by omega)]
    simp
  · subst hj
    rw [Nat.testBit_two_pow_add_eq, Nat.testBit_two_pow_self, Nat.testBit_lt_two_pow h]
    rfl
  · have hpow : (2 : Nat) ^ 16 ≤ 2 ^ j := Nat.pow_le_pow_right (by norm_num) hj
    have e1 : Nat.testBit a j = false := Nat.testBit_lt_two_pow (by omega)
    have e2 : Nat.testBit (2 ^ 15) j = false := Nat.testBit_two_pow_of_ne (by omega)
    have e3 : Nat.testBit (2 ^ 15 + a) j = false := Nat.testBit_lt_two_pow (by omega)
    rw [e1, e2, e3]
    rfl

/-- C6: for every velocity in [-32767, 32767], encoding through the
sign-bit scheme of setTargetVelocity (magnitude with bit 15 set exactly
for negative values), splitting into the two little-endian register
bytes, reassembling the 16-bit raw value and decoding through the speed
getter scheme (clear bit 15, negate when bit 15 was set) recovers the
velocity exactly. -/
theorem velocity_sign_bit_roundtrip (v : Int) (hlo : -32767 ≤ v) (hhi : v ≤ 32767) :
    decodeSpeedRaw (recombine16
      (byteAnd255 (toInt16 ((encodeVelocity v : Nat) : Int)))
      (byteShr8And255 (toInt16 ((encodeVelocity v : Nat) : Int)))) = v := by
  by_cases hv : v < 0
  · obtain ⟨m, rfl⟩ := Int.eq_negSucc_of_lt_zero hv
    rw [Int.negSucc_eq] at hlo hhi
    have hm : m ≤ 32766 := by omega
    have henc : ((encodeVelocity (Int.negSucc m) : Nat) : Int) = ((m + 1 + 32768 : Nat) : Int) := by
      unfold encodeVelocity
      dsimp only
      rw [if_pos (Int.negSucc_lt_zero m)]
      rw [show (Int.negSucc m).natAbs = m + 1 from rfl]
      rw [lor_two_pow_15 (m + 1) (by omega)]
    rw [henc]
    have hX : toInt16 ((m + 1 + 32768 : Nat) : Int) = Int.negSucc (32766 - m) := by
      unfold toInt16
      rw [Int.negSucc_eq]
      omega
    rw [hX]
    have hlo2 : byteAnd255 (Int.negSucc (32766 - m)) = 255 - (32766 - m) % 256 := by
      unfold byteAnd255
      rw [show Int.land (Int.negSucc (32766 - m)) 255
          = ((Nat.ldiff 255 (32766 - m) : Nat) : Int) from rfl]
      rw [ldiff_255]
      omega
    have hhi2 : byteShr8And255 (Int.negSucc (32766 - m)) = 255 - ((32766 - m) / 256) % 256 := by
      unfold byteShr8And255
      rw [show (Int.negSucc (32766 - m)) >>> (8 : Nat)
          = Int.negSucc ((32766 - m) >>> 8) from rfl]
      rw [show Int.land (Int.negSucc ((32766 - m) >>> 8)) 255
          = ((Nat.ldiff 255 ((32766 - m) >>> 8) : Nat) : Int) from rfl]
      rw [ldiff_255, Nat.shiftRight_eq_div_pow]
      rw [show (2 : Nat) ^ 8 = 256 from rfl]
      omega
    rw [hlo2, hhi2]
    have hrec : recombine16 (255 - (32766 - m) % 256) (255 - ((32766 - m) / 256) % 256)
        = Int.negSucc (32766 - m) := by
      unfold recombine16 toInt16
      rw [Nat.shiftLeft_eq, show (2 : Nat) ^ 8 = 256 from rfl, Int.negSucc_eq]
      omega
    rw [hrec]
    unfold decodeSpeedRaw
    dsimp only
    have l1 : Int.land (Int.negSucc (32766 - m)) (Int.not 32768)
        = Int.negSucc ((32766 - m) + 32768) := by
      show Int.negSucc ((32766 - m) ||| 32768) = _
      rw [lor_two_pow_15 _ (by omega)]
    have l2 : Int.land (Int.negSucc (32766 - m)) 32768 = (32768 : Int) := by
      show ((Nat.ldiff 32768 (32766 - m) : Nat) : Int) = _
      rw [ldiff_two_pow_15 _ (by omega)]
      rfl
    rw [l1, l2]
    rw [if_pos (by norm_num : (32768 : Int) ≠ 0)]
    unfold toInt16
    rw [Int.negSucc_eq, Int.negSucc_eq]
    clear henc hX hlo2 hhi2 hrec l1 l2 hv
    omega
  · obtain ⟨a, rfl⟩ : ∃ a : Nat, v = (a : Int) := ⟨v.toNat, by omega⟩
    have ha : a ≤ 32767 := by omega
    have henc : ((encodeVelocity (a : Int) : Nat) : Int) = ((a : Nat) : Int) := by
      unfold encodeVelocity
      dsimp only
      rw [if_neg hv]
      rw [show ((a : Int).natAbs) = a from rfl]
    rw [henc]
    have hX : toInt16 ((a : Nat) : Int) = ((a : Nat) : Int) := by
      unfold toInt16
      omega
    rw [hX]
    have hlo2 : byteAnd255 ((a : Nat) : Int) = a % 256 := by
      unfold byteAnd255
      rw [show Int.land ((a : Nat) : Int) 255 = ((a &&& 255 : Nat) : Int) from rfl]
      rw [show (255 : Nat) = 2 ^ 8 - 1 from rfl, Nat.and_pow_two_sub_one_eq_mod]
      omega
    have hhi2 : byteShr8And255 ((a : Nat) : Int) = (a / 256) % 256 := by
      unfold byteShr8And255
      rw [show ((a : Nat) : Int) >>> (8 : Nat) = ((a >>> 8 : Nat) : Int) from rfl]
      rw [show Int.land ((a >>> 8 : Nat) : Int) 255 = (((a >>> 8) &&& 255 : Nat) : Int) from rfl]
      rw [show (255 : Nat) = 2 ^ 8 - 1 from rfl, Nat.and_pow_two_sub_one_eq_mod]
      rw [Nat.shiftRight_eq_div_pow]
      rw [show (2 : Nat) ^ 8 = 256 from rfl]
      omega
    rw [hlo2, hhi2]
    have hrec : recombine16 (a % 256) (a / 256 % 256) = ((a : Nat) : Int) := by
      unfold recombine16 toInt16
      rw [Nat.shiftLeft_eq, show (2 : Nat) ^ 8 = 256 from rfl]
      omega
    rw [hrec]
    unfold decodeSpeedRaw
    dsimp only
    have l1 : Int.land ((a : Nat) : Int) (Int.not 32768) = ((a : Nat) : Int) := by
      show ((Nat.ldiff a 32768 : Nat) : Int) = _
      rw [ldiff_of_lt a (by omega)]
    have l2 : Int.land ((a : Nat) : Int) 32768 = ((a &&& 32768 : Nat) : Int) := rfl
    rw [l1, l2, land_two_pow_15_eq_zero a (by omega)]
    rw [if_neg (by norm_num)]
    unfold toInt16
    omega

/-- Witness for C6: velocity -100 survives the encode-decode round trip. -/
theorem velocity_sign_bit_roundtrip_witness :
    decodeSpeedRaw (recombine16
      (byteAnd255 (toInt16 ((encodeVelocity (-100) : Nat) : Int)))
      (byteShr8And255 (toInt16 ((encodeVelocity (-100) : Nat) : Int)))) = -100 :=
  velocity_sign_bit_roundtrip (-100) (by decide) (by decide)

/-- Trace of one ping: the PING frame is always transmitted, and at most
one 6-byte read request follows. -/
theorem ping_events (bus : Bus) (servoId : Nat) :
    (ping bus servoId).2 = [BusEvent.txd (sendMessageFrame servoId instruction.PING [])]
    ∨ (ping bus servoId).2 = [BusEvent.txd (sendMessageFrame servoId instruction.PING []),
        BusEvent.rxd 6] := by
  unfold ping sendMessage
  dsimp only
  by_cases h : bus.write (sendMessageFrame servoId instruction.PING []) ≠ 6
  · rw [if_pos h]
    left
    rfl
  · rw [if_neg h]
    cases receiveMessage servoId 1 (bus.read 6) <;> (right; rfl)

/-- C7: setId returns failure without transmitting anything at all when
either id is at least 0xFE, and returns failure having transmitted only
the collision-guard PING frame (never a write frame) when the new id
already responds to ping. -/
theorem setId_guards (bus : Bus) (WRITE_LOCK ID oldServoId newServoId : Nat) :
    ((oldServoId ≥ 0xFE ∨ newServoId ≥ 0xFE) →
      setId bus WRITE_LOCK ID oldServoId newServoId = (false, []))
    ∧ (oldServoId < 0xFE → newServoId < 0xFE → (ping bus newServoId).1 = true →
      setId bus WRITE_LOCK ID oldServoId newServoId = (false, (ping bus newServoId).2)
      ∧ ∀ f, BusEvent.txd f ∈ (ping bus newServoId).2 →
          f = sendMessageFrame newServoId instruction.PING []) := by
  constructor
  · intro h
    unfold setId
    rw [if_pos h]
  · intro h1 h2 hping
    constructor
    · unfold setId
      rw [if_neg (by omega)]
      dsimp only
      rw [if_pos hping]
    · intro f hf
      rcases ping_events bus newServoId with h | h <;> rw [h] at hf <;> simpa using hf

/-- Witness for C7: on a bus where servo 10 answers ping, setId(5, 10)
fails with only the guard PING frame on the wire, and setId(5, 0xFE)
fails without any transmission. -/
theorem setId_guards_witness :
    setId busPing10 55 5 5 10 = (false,
      [BusEvent.txd (sendMessageFrame 10 instruction.PING []), BusEvent.rxd 6])
    ∧ setId busPing10 55 5 5 0xFE = (false, []) := by
  constructor
  · have h := (setId_guards busPing10 55 5 5 10).2 (by decide) (by decide) (by rfl)
    rw [h.1]
    rfl
  · exact (setId_guards busPing10 55 5 5 0xFE).1 (by omega)

/-- Sweeping a list of ids none of which answers ping yields false and
pings every id in order. -/
theorem sweepPing_all_fail (bus : Bus) :
    ∀ l : List Nat, (∀ i ∈ l, (ping bus i).1 = false) →
    sweepPing bus l = (false, (l.map (fun i => (ping bus i).2)).flatten) := by
  intro l
  induction l with
  | nil => intro _; rfl
  | cons i l ih =>
    intro h
    simp only [sweepPing]
    rw [h i (List.mem_cons_self i l), if_neg (by simp)]
    rw [ih (fun j hj => h j (List.mem_cons_of_mem i hj))]
    simp

/-- Sweeping stops at the first id that answers ping: ids before it are
pinged and failed, the responder is pinged, nothing after it is touched. -/
theorem sweepPing_first_success (bus : Bus) (k : Nat) (l₂ : List Nat) :
    ∀ l₁ : List Nat, (∀ i ∈ l₁, (ping bus i).1 = false) → (ping bus k).1 = true →
    sweepPing bus (l₁ ++ k :: l₂) =
      (true, ((l₁ ++ [k]).map (fun i => (ping bus i).2)).flatten) := by
  intro l₁
  induction l₁ with
  | nil =>
    intro _ hk
    simp only [List.nil_append, sweepPing]
    rw [if_pos hk]
    simp
  | cons i l₁ ih =>
    intro h hk
    simp only [List.cons_append, sweepPing]
    rw [h i (List.mem_cons_self i _), if_neg (by simp)]
    simp only [List.append_eq]
    rw [ih (fun j hj => h j (List.mem_cons_of_mem i hj)) hk]
    simp

/-- C8 amended: the discovery sweep of init pings the candidate ids 0x00
to 0xFD in ascending order and stops at the first responder, but it
returns only the liveness Bool true (with the trace showing no id beyond
the first responder was pinged); when no candidate responds it returns
false after pinging all 254 ids. -/
theorem init_sweep_first_responder (bus : Bus) (k : Nat) :
    (k < 254 → (∀ j, j < k → (ping bus j).1 = false) → (ping bus k).1 = true →
      init bus = (true, ((List.range (k + 1)).map (fun i => (ping bus i).2)).flatten))
    ∧ ((∀ j, j < 254 → (ping bus j).1 = false) →
      init bus = (false, ((List.range 254).map (fun i => (ping bus i).2)).flatten)) := by
  constructor
  · intro hk hfail hsucc
    unfold init
    rw [show (254 : Nat) = k + (254 - k) by omega, List.range_add]
    rw [show 254 - k = (253 - k) + 1 by omega, List.range_succ_eq_map]
    simp only [List.map_cons, Nat.add_zero]
    rw [sweepPing_first_success bus k _ (List.range k)
      (fun j hj => hfail j (List.mem_range.mp hj)) hsucc]
    rw [List.range_succ]
  · intro hfail
    unfold init
    rw [sweepPing_all_fail bus (List.range 254)
      (fun j hj => hfail j (List.mem_range.mp hj))]

/-- Counterexample for C8: on a bus where servo 5 is the first responder
and on one where servo 7 is, init returns one and the same value true —
the return value is the liveness Bool of the C code, not the first
responding device id postulated by the claim. -/
theorem init_result_is_not_an_id :
    (init busOnly5).1 = (init busOnly7).1
    ∧ specDiscoverFirstResponder busOnly5 = some 5
    ∧ specDiscoverFirstResponder busOnly7 = some 7
    ∧ (init busOnly5).1 = true := ⟨rfl, rfl, rfl, rfl⟩

/-- Witness for the amended C8: on the bus whose first responder is servo
5, init returns true with exactly the pings of ids 0 .. 5 on the trace. -/
theorem init_sweep_first_responder_witness :
    init busOnly5 = (true, ((List.range 6).map (fun i => (ping busOnly5 i).2)).flatten) :=
  (init_sweep_first_responder busOnly5 5).1 (by decide) (by decide) (by rfl)

/-- Counterexample for C9: ping neither rejects nor special-cases the
broadcast address 0xFE — on busFE it transmits an individually addressed
PING frame whose id byte is 0xFE, reads a response and reports the
device alive, exactly as it would for an ordinary id. -/
theorem ping_broadcast_id_not_rejected :
    ping busFE 0xFE = (true,
      [BusEvent.txd (sendMessageFrame 0xFE instruction.PING []), BusEvent.rxd 6]) := rfl

/-- C9 amended: only setId range-checks device ids (rejecting ids of at
least 0xFE before any transmission); ping and setTargetPosition — the
pattern shared by every register primitive, status getter and motion
setter — perform no broadcast-address check and transmit a frame whose
id byte is 0xFE when handed the broadcast address. -/
theorem broadcast_id_only_checked_by_setId (bus : Bus)
    (TARGET_POSITION WRITE_LOCK ID oldServoId : Nat) (position speed : Int)
    (asynchronous : Bool) :
    (ping bus 0xFE).2.head? = some (BusEvent.txd (sendMessageFrame 0xFE instruction.PING []))
    ∧ (setTargetPosition bus TARGET_POSITION 0xFE position speed asynchronous).2 =
        [BusEvent.txd (sendMessageFrame 0xFE
          (if asynchronous then instruction.REGWRITE else instruction.WRITE)
          (TARGET_POSITION :: [byteAnd255 position, byteShr8And255 position, 0, 0,
            byteAnd255 speed, byteShr8And255 speed]))]
    ∧ setId bus WRITE_LOCK ID oldServoId 0xFE = (false, []) := by
  refine ⟨?_, rfl, ?_⟩
  · rcases ping_events bus 0xFE with h | h <;> rw [h] <;> rfl
  · unfold setId
    rw [if_pos (Or.inr (le_refl 0xFE))]

/-- C10: whenever the underlying readRegisters call fails (negative
return code, covering send-count mismatch, short read, header mismatch
and checksum mismatch alike), the one-byte and two-byte typed read
helpers return 0 instead of an error indication, and so does
getCurrentPosition built on them; a successful read of a genuinely zero
register value yields the same 0. -/
theorem typed_reads_zero_on_failure (bus : Bus) (servoId registerId : Nat) :
    ((readRegisters bus servoId registerId 1).1 < 0 →
      readRegister bus servoId registerId = 0)
    ∧ ((readRegisters bus servoId registerId 2).1 < 0 →
      readTwoBytesRegister bus servoId registerId = 0)
    ∧ ((readRegisters bus servoId registerId 2).1 < 0 →
      getCurrentPosition bus registerId servoId = 0)
    ∧ ((readRegisters bus servoId registerId 2).1 = 0 →
      (readRegisters bus servoId registerId 2).2.1 = [0, 0] →
      getCurrentPosition bus registerId servoId = 0) := by
  refine ⟨?_, ?_, ?_, ?_⟩
  · intro h
    unfold readRegister
    dsimp only
    rw [if_pos h]
  · intro h
    unfold readTwoBytesRegister
    dsimp only
    rw [if_pos h]
  · intro h
    unfold getCurrentPosition readTwoBytesRegister
    dsimp only
    rw [if_pos h]
  · intro h hout
    unfold getCurrentPosition readTwoBytesRegister
    dsimp only
    rw [if_neg (by omega), hout]
    rfl

/-- Witness for C10: on a bus whose transport reports 0 bytes sent, the
read fails with -1 and every typed getter returns 0. -/
theorem typed_reads_zero_on_failure_witness :
    (readRegisters busDead 1 56 1).1 < 0
    ∧ readRegister busDead 1 56 = 0
    ∧ readTwoBytesRegister busDead 1 56 = 0
    ∧ getCurrentPosition busDead 56 1 = 0 := by
  refine ⟨by decide, ?_, ?_, ?_⟩
  · exact (typed_reads_zero_on_failure busDead 1 56).1 (by decide)
  · exact (typed_reads_zero_on_failure busDead 1 56).2.1 (by decide)
  · exact (typed_reads_zero_on_failure busDead 1 56).2.2.1 (by decide)
